import Mathlib

/-!
Verification of the igraph capability-table exchange header
(`src/torbot_venv/Include/site/python3.11/igraph/igraphmodule_api.h`).

The header is interop glue: a fixed two-entry function-pointer table
published by the producer module `igraph._igraph` under the attribute
`_C_API`, a consumer-side loader `import_igraph` that caches the table
in the process-wide global `PyIGraph_API`, and two consumer-side
dispatch definitions that index the cached table.

We embed the loader shallowly.  The Python runtime is an oracle
(`PyEnv`) saying which imports succeed, which attribute lookups
succeed, which objects pass `PyCObject_Check`, and what pointer
`PyCObject_AsVoidPtr` extracts.  The loader is a pure function from the
oracle and the prior value of the global to a result record carrying
the C return value, the new value of the global, the pending runtime
error, the multiset of object references still held at return, and the
trace of runtime calls performed, in order.
-/

/-- Runtime object identities (CPython `PyObject*` values, abstracted). -/
abbrev PyObj := Nat

/-- The raw pointer-array value stored into `PyIGraph_API` (a `void**`). -/
abbrev VoidPtrArray := Nat

/-- The pending-error kinds the loader can leave set: `PyImport_ImportModule`
failing leaves an import error pending, `PyObject_GetAttrString` failing
leaves an attribute error pending. -/
inductive PyErr where
  | importError : PyErr
  | attributeError : PyErr
deriving DecidableEq, Repr

/-- One call into the Python C runtime, recorded in program order. -/
inductive PyCall where
  | importM : String → PyCall
  | getattr : PyObj → String → PyCall
  | typeCheck : PyObj → PyCall
  | asVoidPtr : PyObj → PyCall
  | assignAPI : VoidPtrArray → PyCall
  | decref : PyObj → PyCall
deriving DecidableEq, Repr

/-- The Python runtime as an oracle for the four runtime calls the loader
makes.  `importModule name = none` models `PyImport_ImportModule`
returning `NULL`; `getAttrString m a = none` models
`PyObject_GetAttrString` returning `NULL`; `cObjectCheck` models
`PyCObject_Check`; `cObjectAsVoidPtr` models `PyCObject_AsVoidPtr`. -/
structure PyEnv where
  importModule : String → Option PyObj
  getAttrString : PyObj → String → Option PyObj
  cObjectCheck : PyObj → Bool
  cObjectAsVoidPtr : PyObj → VoidPtrArray

/-- `Py_DECREF o held` releases one reference to `o` from the multiset of
references the call currently holds. -/
def Py_DECREF (o : PyObj) (held : List PyObj) : List PyObj :=
  held.erase o

/-- The observable outcome of one call of `import_igraph`:
the C return value, the value of the global `PyIGraph_API` after the call
(`none` = still unset), the error left pending by the call, the object
references the call still holds when it returns, and the trace of runtime
calls it performed. -/
structure ImportResult where
  ret : Int
  api : Option VoidPtrArray
  pendingError : Option PyErr
  held : List PyObj
  trace : List PyCall

/-- Shallow embedding of `import_igraph` (header lines 58-78).

```c
static int import_igraph(void) {
  PyObject *c_api_object;
  PyObject *module;
  module = PyImport_ImportModule("igraph._igraph");
  if (module == 0)
    return -1;
  c_api_object = PyObject_GetAttrString(module, "_C_API");
  if (c_api_object == 0) {
    Py_DECREF(module);
    return -1;
  }
  if (PyCObject_Check(c_api_object))
    PyIGraph_API = (void**)PyCObject_AsVoidPtr(c_api_object);
  Py_DECREF(c_api_object);
  Py_DECREF(module);
  return 0;
}
```

`api0` is the value of the global `PyIGraph_API` on entry.  A successful
`PyImport_ImportModule` and a successful `PyObject_GetAttrString` each
hand the caller a new reference, which we push onto `held`; each
`Py_DECREF` releases one. -/
def import_igraph (env : PyEnv) (api0 : Option VoidPtrArray) : ImportResult :=
  match env.importModule "igraph._igraph" with
  | none =>
      { ret := -1, api := api0, pendingError := some PyErr.importError,
        held := [],
        trace := [PyCall.importM "igraph._igraph"] }
  | some module =>
      let held1 : List PyObj := module :: []
      match env.getAttrString module "_C_API" with
      | none =>
          { ret := -1, api := api0, pendingError := some PyErr.attributeError,
            held := Py_DECREF module held1,
            trace := [PyCall.importM "igraph._igraph",
                      PyCall.getattr module "_C_API",
                      PyCall.decref module] }
      | some c_api_object =>
          let held2 : List PyObj := c_api_object :: held1
          if env.cObjectCheck c_api_object then
            let p := env.cObjectAsVoidPtr c_api_object
            { ret := 0, api := some p, pendingError := none,
              held := Py_DECREF module (Py_DECREF c_api_object held2),
              trace := [PyCall.importM "igraph._igraph",
                        PyCall.getattr module "_C_API",
                        PyCall.typeCheck c_api_object,
                        PyCall.asVoidPtr c_api_object,
                        PyCall.assignAPI p,
                        PyCall.decref c_api_object,
                        PyCall.decref module] }
          else
            { ret := 0, api := api0, pendingError := none,
              held := Py_DECREF module (Py_DECREF c_api_object held2),
              trace := [PyCall.importM "igraph._igraph",
                        PyCall.getattr module "_C_API",
                        PyCall.typeCheck c_api_object,
                        PyCall.decref c_api_object,
                        PyCall.decref module] }

/-- Does the full acquire path go through in `env`: module loads, attribute
present, and the retrieved attribute passes `PyCObject_Check`? -/
def checkSucceeds (env : PyEnv) : Bool :=
  match env.importModule "igraph._igraph" with
  | none => false
  | some m =>
      match env.getAttrString m "_C_API" with
      | none => false
      | some o => env.cObjectCheck o

/-- Run a sequence of `import_igraph` calls (each against its own runtime
oracle), threading the global `PyIGraph_API` through. -/
def import_igraph_seq (envs : List PyEnv) (api0 : Option VoidPtrArray) :
    Option VoidPtrArray :=
  envs.foldl (fun a e => (import_igraph e a).api) api0

/-- Number of writes to the global `PyIGraph_API` recorded in a trace. -/
def countAssigns : List PyCall → Nat
  | [] => 0
  | PyCall.assignAPI _ :: t => countAssigns t + 1
  | _ :: t => countAssigns t

/- Capability-table layout (header lines 31-55). -/

/-- The two C pointer types appearing in the table signatures. -/
inductive CType where
  | pyObjectPtr : CType
  | igraphTPtr : CType
deriving DecidableEq, Repr

def PyIGraph_FromCGraph_NUM : Nat := 0
def PyIGraph_FromCGraph_RETURN : CType := CType.pyObjectPtr
def PyIGraph_FromCGraph_PROTO : CType := CType.igraphTPtr

def PyIGraph_ToCGraph_NUM : Nat := 1
def PyIGraph_ToCGraph_RETURN : CType := CType.igraphTPtr
def PyIGraph_ToCGraph_PROTO : CType := CType.pyObjectPtr

/-- Total number of C API pointers. -/
def PyIGraph_API_pointers : Nat := 2

/-- A function pointer together with the signature the consumer-side cast
imposes on it. -/
structure TypedFnPtr where
  addr : Nat
  retTy : CType
  argTy : CType
deriving DecidableEq, Repr

/-- The consumer-side `PyIGraph_FromCGraph` dispatch: dereference the cached
array at index `PyIGraph_FromCGraph_NUM` and cast to
`PyIGraph_FromCGraph_RETURN (*)PyIGraph_FromCGraph_PROTO`. -/
def PyIGraph_FromCGraph_call (api : Nat → Nat) : TypedFnPtr :=
  { addr := api PyIGraph_FromCGraph_NUM,
    retTy := PyIGraph_FromCGraph_RETURN,
    argTy := PyIGraph_FromCGraph_PROTO }

/-- The consumer-side `PyIGraph_ToCGraph` dispatch: dereference the cached
array at index `PyIGraph_ToCGraph_NUM` and cast to
`PyIGraph_ToCGraph_RETURN (*)PyIGraph_ToCGraph_PROTO`. -/
def PyIGraph_ToCGraph_call (api : Nat → Nat) : TypedFnPtr :=
  { addr := api PyIGraph_ToCGraph_NUM,
    retTy := PyIGraph_ToCGraph_RETURN,
    argTy := PyIGraph_ToCGraph_PROTO }

/- Concrete runtime oracles used as witnesses. -/

/-- Runtime in which the producer module `igraph._igraph` is absent. -/
def envAbsent : PyEnv :=
  { importModule := fun _ => none
    getAttrString := fun _ _ => none
    cObjectCheck := fun _ => false
    cObjectAsVoidPtr := fun _ => 0 }

/-- Runtime in which `igraph._igraph` loads (as object 7) but publishes no
`_C_API` attribute. -/
def envNoAttr : PyEnv :=
  { importModule := fun n => if n = "igraph._igraph" then some 7 else none
    getAttrString := fun _ _ => none
    cObjectCheck := fun _ => false
    cObjectAsVoidPtr := fun _ => 0 }

/-- Runtime in which `igraph._igraph` loads (as object 7) and publishes
`_C_API` (as object 9), but object 9 fails `PyCObject_Check`. -/
def envBadType : PyEnv :=
  { importModule := fun n => if n = "igraph._igraph" then some 7 else none
    getAttrString := fun m a => if m = 7 ∧ a = "_C_API" then some 9 else none
    cObjectCheck := fun _ => false
    cObjectAsVoidPtr := fun _ => 0 }

/- Theorems -/

/-- C3: if loading the producer module `igraph._igraph` fails
(`PyImport_ImportModule` returns null), `import_igraph` returns -1 with
an ImportError-equivalent pending, and the global `PyIGraph_API` keeps
its prior value. -/
theorem import_igraph_moduleNotFound (env : PyEnv) (api0 : Option VoidPtrArray)
    (h : env.importModule "igraph._igraph" = none) :
    (import_igraph env api0).ret = -1 ∧
    (import_igraph env api0).api = api0 ∧
    (import_igraph env api0).pendingError = some PyErr.importError := by
  simp [import_igraph, h]

/-- Witness for C3: in a runtime with no producer module, a call with the
global previously set to 3 fails and keeps the global at 3. -/
theorem import_igraph_moduleNotFound_witness :
    (import_igraph envAbsent (some 3)).ret = -1 ∧
    (import_igraph envAbsent (some 3)).api = some 3 ∧
    (import_igraph envAbsent (some 3)).pendingError = some PyErr.importError :=
  import_igraph_moduleNotFound envAbsent (some 3) rfl

/-- C4: if the producer module loads but retrieving `_C_API` fails
(`PyObject_GetAttrString` returns null), `import_igraph` returns -1 with an
attribute error pending, and the global `PyIGraph_API` keeps its prior
value. -/
theorem import_igraph_attributeMissing (env : PyEnv) (api0 : Option VoidPtrArray)
    (m : PyObj) (h1 : env.importModule "igraph._igraph" = some m)
    (h2 : env.getAttrString m "_C_API" = none) :
    (import_igraph env api0).ret = -1 ∧
    (import_igraph env api0).api = api0 ∧
    (import_igraph env api0).pendingError = some PyErr.attributeError := by
  simp [import_igraph, h1, h2]

/-- Witness for C4: in a runtime whose producer module (object 7) publishes
no `_C_API`, a call with the global unset fails and leaves it unset. -/
theorem import_igraph_attributeMissing_witness :
    (import_igraph envNoAttr none).ret = -1 ∧
    (import_igraph envNoAttr none).api = none ∧
    (import_igraph envNoAttr none).pendingError = some PyErr.attributeError :=
  import_igraph_attributeMissing envNoAttr none 7 (by decide) rfl

/-- C2: when the module import and the attribute lookup succeed but the
retrieved attribute fails `PyCObject_Check`, `import_igraph` still returns
0 with no error pending, and does not write the global `PyIGraph_API`,
leaving it in its prior state. -/
theorem import_igraph_typeMismatch_silent (env : PyEnv)
    (api0 : Option VoidPtrArray) (m o : PyObj)
    (h1 : env.importModule "igraph._igraph" = some m)
    (h2 : env.getAttrString m "_C_API" = some o)
    (h3 : env.cObjectCheck o = false) :
    (import_igraph env api0).ret = 0 ∧
    (import_igraph env api0).api = api0 ∧
    (import_igraph env api0).pendingError = none := by
  simp [import_igraph, h1, h2, h3]

/-- Witness for C2: module 7 loads, attribute 9 is retrieved, the type
check fails, and the call still reports success while the global stays at
its prior value 5. -/
theorem import_igraph_typeMismatch_silent_witness :
    (import_igraph envBadType (some 5)).ret = 0 ∧
    (import_igraph envBadType (some 5)).api = some 5 ∧
    (import_igraph envBadType (some 5)).pendingError = none :=
  import_igraph_typeMismatch_silent envBadType (some 5) 7 9
    (by decide) (by decide) rfl

/-- C1: the claimed equivalence (success iff module loadable AND attribute
published AND attribute passes the type check) fails on the code: in
`envBadType` the module loads as object 7, `_C_API` is retrieved as object
9, object 9 fails `PyCObject_Check`, yet `import_igraph` returns 0 and
leaves the global unset. -/
theorem import_igraph_typeMismatch_returns_success :
    envBadType.importModule "igraph._igraph" = some 7 ∧
    envBadType.getAttrString 7 "_C_API" = some 9 ∧
    envBadType.cObjectCheck 9 = false ∧
    checkSucceeds envBadType = false ∧
    (import_igraph envBadType none).ret = 0 ∧
    (import_igraph envBadType none).api = none := by
  refine ⟨by decide, by decide, rfl, ?_, ?_, ?_⟩ <;> decide

/-- C6: every call of `import_igraph` returns -1 (with an error pending)
or 0; no other return value is possible. -/
theorem import_igraph_binary_result (env : PyEnv) (api0 : Option VoidPtrArray) :
    ((import_igraph env api0).ret = -1 ∧
      (import_igraph env api0).pendingError.isSome = true) ∨
    (import_igraph env api0).ret = 0 := by
  rcases h1 : env.importModule "igraph._igraph" with _ | m
  · simp [import_igraph, h1]
  · rcases h2 : env.getAttrString m "_C_API" with _ | o
    · simp [import_igraph, h1, h2]
    · rcases h3 : env.cObjectCheck o <;> simp [import_igraph, h1, h2, h3]

/-- C10: on every return path of `import_igraph`, each runtime reference
acquired during the call (the module reference, the attribute reference)
has been released by a matching `Py_DECREF` before returning: the set of
references still held at return is empty. -/
theorem import_igraph_releases_references (env : PyEnv)
    (api0 : Option VoidPtrArray) :
    (import_igraph env api0).held = [] := by
  rcases h1 : env.importModule "igraph._igraph" with _ | m
  · simp [import_igraph, h1]
  · rcases h2 : env.getAttrString m "_C_API" with _ | o
    · simp [import_igraph, h1, h2, Py_DECREF]
    · rcases h3 : env.cObjectCheck o <;>
        simp [import_igraph, h1, h2, h3, Py_DECREF]

/-- C5: `import_igraph` may be called any number of times.  Each call
performs the full runtime-call sequence independently of the cached state
(trace, return value and pending error do not depend on the prior value of
the global; there is no cached-success short-circuit), the new value of
the global is the stored pointer when the type check passes and the prior
value otherwise, and after any sequence of calls the final global is the
one produced by the most recent call applied to the state it found. -/
theorem import_igraph_repeatable (envs : List PyEnv) (env : PyEnv)
    (a b : Option VoidPtrArray) :
    (import_igraph env a).trace = (import_igraph env b).trace ∧
    (import_igraph env a).ret = (import_igraph env b).ret ∧
    (import_igraph env a).pendingError = (import_igraph env b).pendingError ∧
    ((import_igraph env a).api =
      if checkSucceeds env then (import_igraph env none).api else a) ∧
    import_igraph_seq (envs ++ [env]) a =
      (import_igraph env (import_igraph_seq envs a)).api := by
  refine ⟨?_, ?_, ?_, ?_, by simp [import_igraph_seq]⟩ <;>
  · rcases h1 : env.importModule "igraph._igraph" with _ | m
    · simp [import_igraph, checkSucceeds, h1]
    · rcases h2 : env.getAttrString m "_C_API" with _ | o
      · simp [import_igraph, checkSucceeds, h1, h2]
      · rcases h3 : env.cObjectCheck o <;>
          simp [import_igraph, checkSucceeds, h1, h2, h3]

/-- C7: the checks run in a fixed order with early exits.  If the module
fails to load, the trace is the single import attempt and the call fails
at once; only when the module loaded is the attribute retrieved, and if that
fails the call releases the module and fails at once; only when the
attribute was retrieved is its type checked, and on a passing check the
handle is unwrapped and the raw pointer array stored into the global. -/
theorem import_igraph_check_order (env : PyEnv) (api0 : Option VoidPtrArray) :
    match env.importModule "igraph._igraph" with
    | none =>
        (import_igraph env api0).trace = [PyCall.importM "igraph._igraph"] ∧
        (import_igraph env api0).ret = -1
    | some m =>
        match env.getAttrString m "_C_API" with
        | none =>
            (import_igraph env api0).trace =
              [PyCall.importM "igraph._igraph",
               PyCall.getattr m "_C_API",
               PyCall.decref m] ∧
            (import_igraph env api0).ret = -1
        | some o =>
            (import_igraph env api0).trace.take 3 =
              [PyCall.importM "igraph._igraph",
               PyCall.getattr m "_C_API",
               PyCall.typeCheck o] ∧
            (if env.cObjectCheck o then
               (import_igraph env api0).api = some (env.cObjectAsVoidPtr o)
             else (import_igraph env api0).api = api0) := by
  rcases h1 : env.importModule "igraph._igraph" with _ | m
  · simp [import_igraph, h1]
  · rcases h2 : env.getAttrString m "_C_API" with _ | o
    · simp [import_igraph, h1, h2]
    · rcases h3 : env.cObjectCheck o <;> simp [import_igraph, h1, h2, h3]

/-- C9: the only global `import_igraph` mutates is `PyIGraph_API`; within
one call it writes it at most once, it writes it exactly when
`PyCObject_Check` succeeds on the retrieved attribute, and on every other
path the global keeps its prior value. -/
theorem import_igraph_frame (env : PyEnv) (api0 : Option VoidPtrArray) :
    countAssigns (import_igraph env api0).trace ≤ 1 ∧
    (if checkSucceeds env then
       countAssigns (import_igraph env api0).trace = 1
     else
       countAssigns (import_igraph env api0).trace = 0 ∧
       (import_igraph env api0).api = api0) := by
  rcases h1 : env.importModule "igraph._igraph" with _ | m
  · simp [import_igraph, checkSucceeds, countAssigns, h1]
  · rcases h2 : env.getAttrString m "_C_API" with _ | o
    · simp [import_igraph, checkSucceeds, countAssigns, h1, h2]
    · rcases h3 : env.cObjectCheck o <;>
        simp [import_igraph, checkSucceeds, countAssigns, h1, h2, h3]

/-- C8: the capability table has exactly 2 entries; index 0 is the
conversion taking an `igraph_t*` and returning a `PyObject*`
(`PyIGraph_FromCGraph`) and index 1 is the conversion taking a `PyObject*`
and returning an `igraph_t*` (`PyIGraph_ToCGraph`); the consumer-side
dispatch dereferences the cached array at exactly these in-range indices
with exactly these signatures. -/
theorem capability_table_layout :
    PyIGraph_API_pointers = 2 ∧
    PyIGraph_FromCGraph_NUM = 0 ∧
    PyIGraph_ToCGraph_NUM = 1 ∧
    PyIGraph_FromCGraph_NUM < PyIGraph_API_pointers ∧
    PyIGraph_ToCGraph_NUM < PyIGraph_API_pointers ∧
    (∀ api : Nat → Nat,
      PyIGraph_FromCGraph_call api =
        { addr := api 0, retTy := CType.pyObjectPtr, argTy := CType.igraphTPtr } ∧
      PyIGraph_ToCGraph_call api =
        { addr := api 1, retTy := CType.igraphTPtr, argTy := CType.pyObjectPtr }) :=
  ⟨rfl, rfl, rfl, by decide, by decide, fun api => ⟨rfl, rfl⟩⟩
